import Mathlib

set_option maxRecDepth 100000

/-!
Shallow embedding of the OXRS StateIO firmware (src/src/main.cpp):
the dynamic port-partitioning / addressing layer, the JSON config and
command handlers for outputs, and the input event publisher.

Machine integers: every value involved is a C `uint8_t` or `int`.  All
intermediate results of the modelled arithmetic stay well inside `int`
range and, where a `uint8_t` result matters, inside `[0, 255]`, except in
`outpIndex2Mcp` / `outpIndex2Pin` where the `int` subtraction can go
negative and the implicit conversion of the result back to `uint8_t`
matters; those two are therefore modelled over `Int` with C truncating
division (`Int.tdiv` / `Int.tmod`) followed by the C unsigned conversion
(`emod 256`).  Everything else is modelled over `Nat`, which agrees with
the C semantics on the ranges that occur.

Side-effecting handler code is modelled as a function from the global
state and the parsed JSON entry to the list of effects (calls into the
collaborator libraries, log lines) it performs, in program order.
-/

namespace StateIO

/-- MCP_COUNT: up to 8 MCP23017 expanders on the bus. -/
def MCP_COUNT : Nat := 8

/-- MCP_PIN_COUNT: each MCP23017 has 16 I/O pins. -/
def MCP_PIN_COUNT : Nat := 16

/-- INVALID_OUTPUT_TYPE: sentinel returned when output type parsing fails. -/
def INVALID_OUTPUT_TYPE : Nat := 99

/-- INVALID_INPUT_TYPE: sentinel returned when input type parsing fails. -/
def INVALID_INPUT_TYPE : Nat := 99

/-- Modelled from the spec: DEFAULT_TIMER_SECS comes from the external
OXRS_Output collaborator library (not part of this repository); the
firmware's own output config schema describes it as "defaults to 60
seconds" and the spec calls it "a fixed default duration".  Its concrete
value is never load-bearing below: theorems mention it symbolically. -/
def DEFAULT_TIMER_SECS : Int := 60

/-- Output type tags RELAY / MOTOR / TIMER come from the external
OXRS_Output library header; only their mutual distinctness and their
distinctness from INVALID_OUTPUT_TYPE (99) are used by the firmware
code modelled here. -/
def RELAY : Nat := 0

/-- MOTOR output type tag (see `RELAY`). -/
def MOTOR : Nat := 1

/-- TIMER output type tag (see `RELAY`). -/
def TIMER : Nat := 2

/-- RELAY_OFF state tag from the external OXRS_Output library. -/
def RELAY_OFF : Nat := 0

/-- RELAY_ON state tag from the external OXRS_Output library. -/
def RELAY_ON : Nat := 1

/-- The global mutable state the addressing layer reads:
`g_mcps_found` (presence bitmap over the 8 slots, one bit per slot),
`g_mcp_output_start` (the partition boundary), and
`g_mcp_output_pins` (outputs controlled per MCP, 8 or 16). -/
structure State where
  mcpsFound : Nat
  outputStart : Nat
  outputPins : Nat
deriving Repr, DecidableEq

/-- bitRead(g_mcps_found, i). -/
def mcpFound (s : State) (i : Nat) : Bool :=
  s.mcpsFound.testBit i

/-- getMinInputIndex(): indexes are 1-based. -/
def getMinInputIndex : Nat := 1

/-- Loop body of getMaxInputIndex: `for (int i = g_mcp_output_start - 1; i >= 0; i--)`;
`maxInputScan s n` scans slots `n-1, n-2, ..., 0`. -/
def maxInputScan (s : State) : Nat → Nat
  | 0 => getMinInputIndex
  | i + 1 =>
    if mcpFound s i then (i + 1) * MCP_PIN_COUNT
    else maxInputScan s i

/-- getMaxInputIndex(): highest present input slot `i` gives `(i+1)*16`;
if no input MCP is present, returns getMinInputIndex(). -/
def getMaxInputIndex (s : State) : Nat :=
  maxInputScan s s.outputStart

/-- getMinOutputIndex() = g_mcp_output_start * MCP_PIN_COUNT + 1. -/
def getMinOutputIndex (s : State) : Nat :=
  s.outputStart * MCP_PIN_COUNT + 1

/-- Loop of getMaxOutputIndex: `for (int i = 7; i >= g_mcp_output_start; i--)`;
`maxOutputScan s i` performs the iterations from slot `i` downwards. -/
def maxOutputScan (s : State) : Nat → Nat
  | 0 =>
    if 0 < s.outputStart then getMinOutputIndex s
    else if mcpFound s 0 then (0 + 1 - s.outputStart) * s.outputPins + getMinOutputIndex s - 1
    else getMinOutputIndex s
  | i + 1 =>
    if i + 1 < s.outputStart then getMinOutputIndex s
    else if mcpFound s (i + 1) then (i + 2 - s.outputStart) * s.outputPins + getMinOutputIndex s - 1
    else maxOutputScan s i

/-- getMaxOutputIndex(): highest present output slot `i` gives
`(i + 1 - g_mcp_output_start) * g_mcp_output_pins + getMinOutputIndex() - 1`;
if no output MCP is present, returns getMinOutputIndex(). -/
def getMaxOutputIndex (s : State) : Nat :=
  maxOutputScan s 7

/-- isInputMcp(mcp): `mcp < g_mcp_output_start`. -/
def isInputMcp (s : State) (mcp : Nat) : Bool :=
  mcp < s.outputStart

/-- isOutputMcp(mcp): `!isInputMcp(mcp)`. -/
def isOutputMcp (s : State) (mcp : Nat) : Bool :=
  !(isInputMcp s mcp)

/-- outpIndex2Mcp(int index): `(index - getMinOutputIndex()) / g_mcp_output_pins + g_mcp_output_start`
computed in C `int` arithmetic (division truncating towards zero), then
converted to the `uint8_t` return type (reduction mod 256). -/
def outpIndex2Mcp (s : State) (index : Int) : Nat :=
  (((index - (getMinOutputIndex s : Int)).tdiv (s.outputPins : Int)
      + (s.outputStart : Int)).emod 256).toNat

/-- outpIndex2Pin(int index): `(index - getMinOutputIndex()) % g_mcp_output_pins`
in C `int` arithmetic (remainder takes the dividend's sign), converted to
the `uint8_t` return type (reduction mod 256). -/
def outpIndex2Pin (s : State) (index : Int) : Nat :=
  (((index - (getMinOutputIndex s : Int)).tmod (s.outputPins : Int)).emod 256).toNat

/-- Index computed by outputEvent for a raw (mcp, pin) event:
`raw_index = (mcp - g_mcp_output_start) * g_mcp_output_pins + getMinOutputIndex() - 1 + pin`,
published index `raw_index + 1`. -/
def outputEventIndex (s : State) (mcp pin : Nat) : Nat :=
  (mcp - s.outputStart) * s.outputPins + getMinOutputIndex s - 1 + pin + 1

/-- Index computed by inputEvent for a raw (mcp, input) event:
`(MCP_PIN_COUNT * mcp) + input + 1`. -/
def inputEventIndex (mcp input : Nat) : Nat :=
  MCP_PIN_COUNT * mcp + input + 1

/-- A JSON field of an entry object: absent (containsKey false), an
explicit JSON null, or a value (already converted by the `as<...>()`
accessor the code applies to it). -/
inductive JField (α : Type) where
  | absent : JField α
  | null : JField α
  | val : α → JField α
deriving Repr, DecidableEq

/-- One element of the "outputs" array of a config message, with exactly
the fields jsonOutputConfig reads: required `index` (read via
`as<uint8_t>`, so a value in [0,255]; `none` models a missing key),
optional `type` (string), optional `timerSeconds` (read via `as<int>`,
with JSON null distinguished), optional `interlockIndex` (read via
`as<uint8_t>`, with JSON null distinguished). -/
structure OutputConfigEntry where
  index : Option Nat
  type : Option String
  timerSeconds : JField Int
  interlockIndex : JField Nat
deriving Repr, DecidableEq

/-- One element of the "outputs" array of a command message, with exactly
the fields jsonOutputCommand reads: required `index`, optional `type`
(string), and `command` (string, with JSON null distinguished). -/
structure OutputCommandEntry where
  index : Option Nat
  type : Option String
  command : JField String
deriving Repr, DecidableEq

/-- The distinct oxrs.println log lines the modelled handlers can emit. -/
inductive LogMsg where
  | missingOutputIndex
  | invalidOutputIndex
  | invalidOutputType
  | lockMustBeSameMcp
  | commandTypeMismatch
  | invalidCommand
deriving Repr, DecidableEq

/-- An observable effect of the handlers, in program order: a call into a
collaborator object or a log line.  `setType`, `setTimer`, `setInterlock`
and `handleCommand` are calls on `oxrsOutput[mcp]`; `publishOutput` is
`publishOutputEvent(index, type, state)`. -/
inductive Effect where
  | setType (mcp pin ty : Nat)
  | setTimer (mcp pin : Nat) (secs : Int)
  | setInterlock (mcp pin lockPin : Nat)
  | handleCommand (mcp pin state : Nat)
  | publishOutput (index ty state : Nat)
  | logWarning (msg : LogMsg)
deriving Repr, DecidableEq

/-- parseOutputType: "relay" / "motor" / "timer", anything else is
INVALID_OUTPUT_TYPE. -/
def parseOutputType (outputType : String) : Nat :=
  if outputType = "relay" then RELAY
  else if outputType = "motor" then MOTOR
  else if outputType = "timer" then TIMER
  else INVALID_OUTPUT_TYPE

/-- Log line emitted by parseOutputType when parsing fails. -/
def parseOutputTypeLogs (outputType : String) : List Effect :=
  if parseOutputType outputType = INVALID_OUTPUT_TYPE then
    [Effect.logWarning LogMsg.invalidOutputType]
  else []

/-- getOutputIndex(json): returns 0 (plus a log) when the key is missing
or the index lies outside [getMinOutputIndex(), getMaxOutputIndex()],
otherwise the index itself. -/
def getOutputIndex (s : State) (idx : Option Nat) : Nat × List Effect :=
  match idx with
  | none => (0, [Effect.logWarning LogMsg.missingOutputIndex])
  | some index =>
    if index < getMinOutputIndex s ∨ getMaxOutputIndex s < index then
      (0, [Effect.logWarning LogMsg.invalidOutputIndex])
    else
      (index, [])

/-- Effects of jsonOutputConfig's `type` block: parse the string, call
setType unless parsing failed. -/
def typeEffects (mcp pin : Nat) : Option String → List Effect
  | none => []
  | some t =>
    if parseOutputType t = INVALID_OUTPUT_TYPE then parseOutputTypeLogs t
    else [Effect.setType mcp pin (parseOutputType t)]

/-- Effects of jsonOutputConfig's `timerSeconds` block: an explicit JSON
null calls `setTimer(pin, DEFAULT_TIMER_SECS)`, any value `v` calls
`setTimer(pin, v)` with no validation. -/
def timerEffects (mcp pin : Nat) : JField Int → List Effect
  | JField.absent => []
  | JField.null => [Effect.setTimer mcp pin DEFAULT_TIMER_SECS]
  | JField.val v => [Effect.setTimer mcp pin v]

/-- Effects of jsonOutputConfig's `interlockIndex` block: an explicit
JSON null interlocks the pin with itself; otherwise the index is resolved
via outpIndex2Mcp / outpIndex2Pin, and setInterlock is called only when
the resolved MCP equals the entry's own MCP, else a warning is logged. -/
def interlockEffects (s : State) (mcp pin : Nat) : JField Nat → List Effect
  | JField.absent => []
  | JField.null => [Effect.setInterlock mcp pin pin]
  | JField.val iv =>
    if outpIndex2Mcp s (iv : Int) = mcp then
      [Effect.setInterlock mcp pin (outpIndex2Pin s (iv : Int))]
    else
      [Effect.logWarning LogMsg.lockMustBeSameMcp]

/-- jsonOutputConfig(json): validate the index (0 aborts the entry), map
it to (mcp, pin), then process the optional `type`, `timerSeconds` and
`interlockIndex` fields in program order. -/
def jsonOutputConfig (s : State) (e : OutputConfigEntry) : List Effect :=
  let r := getOutputIndex s e.index
  if r.1 = 0 then r.2
  else
    let mcp := outpIndex2Mcp s (r.1 : Int)
    let pin := outpIndex2Pin s (r.1 : Int)
    r.2 ++ typeEffects mcp pin e.type
        ++ timerEffects mcp pin e.timerSeconds
        ++ interlockEffects s mcp pin e.interlockIndex

/-- Effects of jsonOutputCommand's `command` block: JSON null or "query"
reads the pin state (`digitalRead`, abstracted as a function of (mcp,
pin)) and publishes it; "on"/"off" delegate to handleCommand; anything
else logs. -/
def commandEffects (digitalRead : Nat → Nat → Nat) (index mcp pin ty : Nat) :
    JField String → List Effect
  | JField.absent => []
  | JField.null => [Effect.publishOutput index ty (digitalRead mcp pin)]
  | JField.val c =>
    if c = "query" then [Effect.publishOutput index ty (digitalRead mcp pin)]
    else if c = "on" then [Effect.handleCommand mcp pin RELAY_ON]
    else if c = "off" then [Effect.handleCommand mcp pin RELAY_OFF]
    else [Effect.logWarning LogMsg.invalidCommand]

/-- jsonOutputCommand(json): validate the index (0 aborts the entry), map
it to (mcp, pin), read the pin's configured type (`oxrsOutput[mcp].getType(pin)`,
abstracted as the function `getTy`); if a `type` field is present and does
not parse to that configured type the whole entry is rejected with a log;
otherwise the `command` field is processed. -/
def jsonOutputCommand (s : State) (getTy digitalRead : Nat → Nat → Nat)
    (e : OutputCommandEntry) : List Effect :=
  let r := getOutputIndex s e.index
  if r.1 = 0 then r.2
  else
    let mcp := outpIndex2Mcp s (r.1 : Int)
    let pin := outpIndex2Pin s (r.1 : Int)
    let ty := getTy mcp pin
    match e.type with
    | some t =>
      if parseOutputType t ≠ ty then
        r.2 ++ parseOutputTypeLogs t ++ [Effect.logWarning LogMsg.commandTypeMismatch]
      else
        r.2 ++ parseOutputTypeLogs t ++ commandEffects digitalRead r.1 mcp pin ty e.command
    | none =>
      r.2 ++ commandEffects digitalRead r.1 mcp pin ty e.command

/-- The JSON document built by publishInputEvent, restricted to the
numeric fields (the `type` / `event` strings are rendered from fixed
lookup tables over enum constants owned by the external OXRS_Input
library and are carried here as the raw codes handed to those tables). -/
structure InputEventRecord where
  port : Nat
  channel : Nat
  index : Nat
  typeCode : Nat
  stateCode : Nat
deriving Repr, DecidableEq

/-- publishInputEvent(index, type, state): computes
`port = ((index - 1) / 4) + 1` and `channel = index - ((port - 1) * 4)`
(all 1-based, in `uint8_t` arithmetic, which agrees with Nat arithmetic
on [0,255]) and builds the published record. -/
def publishInputEvent (index ty st : Nat) : InputEventRecord :=
  let port := (index - 1) / 4 + 1
  let channel := index - (port - 1) * 4
  ⟨port, channel, index, ty, st⟩

/-- Index bounds advertised by inputConfigSchema for the `index` field. -/
structure InputSchemaDoc where
  indexMin : Nat
  indexMax : Nat
deriving Repr, DecidableEq

/-- Bounds advertised by outputConfigSchema: the `index` field range, the
`timerSeconds` minimum, and the `interlockIndex` field range. -/
structure OutputSchemaDoc where
  indexMin : Nat
  indexMax : Nat
  timerSecondsMin : Nat
  interlockMin : Nat
  interlockMax : Nat
deriving Repr, DecidableEq

/-- inputConfigSchema: index minimum/maximum from the addressing engine. -/
def inputConfigSchema (s : State) : InputSchemaDoc :=
  ⟨getMinInputIndex, getMaxInputIndex s⟩

/-- outputConfigSchema: index and interlockIndex ranges from the
addressing engine; timerSeconds minimum 1. -/
def outputConfigSchema (s : State) : OutputSchemaDoc :=
  ⟨getMinOutputIndex s, getMaxOutputIndex s, 1, getMinOutputIndex s, getMaxOutputIndex s⟩

/-- setConfigSchema, reduced to the conditional inclusion that decides
which sections appear: the input section is built iff `isInputMcp(0)`,
the output section iff `isOutputMcp(MCP_COUNT - 1)`. -/
def setConfigSchema (s : State) : Option InputSchemaDoc × Option OutputSchemaDoc :=
  (if isInputMcp s 0 then some (inputConfigSchema s) else none,
   if isOutputMcp s (MCP_COUNT - 1) then some (outputConfigSchema s) else none)

/-- Presence of an input slot: a present slot strictly below the
partition boundary. -/
def hasInputSlot (s : State) : Prop :=
  ∃ i, i < s.outputStart ∧ mcpFound s i = true

instance (s : State) : Decidable (hasInputSlot s) := by
  unfold hasInputSlot
  infer_instance

end StateIO

namespace StateIO

/-- C7: with partition boundary 4, 16 outputs per MCP and all 8 slots
present (bitmap 0xFF), the addressing engine returns
minOutputIndex = 65, maxOutputIndex = 128 and maxInputIndex = 64. -/
theorem C7_addressing_values :
    getMinOutputIndex ⟨255, 4, 16⟩ = 65 ∧
    getMaxOutputIndex ⟨255, 4, 16⟩ = 128 ∧
    getMaxInputIndex ⟨255, 4, 16⟩ = 64 := by
  decide

/-- C2 counterexample: with boundary 4 (a valid value) and no slot
present, getMinInputIndex() ≤ getMaxInputIndex() still holds (both are
the 1-sentinel), yet no input slot is present — so the claimed
equivalence between `min ≤ max` and the existence of an input slot is
false as stated. -/
theorem C2_counterexample :
    (4 : Nat) ∈ [0, 2, 4, 6, 8] ∧
    getMinInputIndex ≤ getMaxInputIndex ⟨0, 4, 16⟩ ∧
    ¬ hasInputSlot ⟨0, 4, 16⟩ := by
  decide

/-- C2 amended: for every valid partition boundary, pins-per-device
value and presence bitmap, the strict inequality
getMinInputIndex() < getMaxInputIndex() holds iff at least one input
slot (a present slot below the boundary) exists; when none exists the
two coincide at the sentinel value 1. -/
theorem C2_min_lt_max_iff_input_slot :
    ∀ found < 256, ∀ b ∈ [0, 2, 4, 6, 8], ∀ pins ∈ [8, 16],
      (getMinInputIndex < getMaxInputIndex ⟨found, b, pins⟩ ↔
        hasInputSlot ⟨found, b, pins⟩) := by
  decide

/-- C2 amended witness at found = 3, boundary = 4, pins = 16. -/
theorem C2_min_lt_max_iff_input_slot_witness :
    (3 : Nat) < 256 ∧ (4 : Nat) ∈ [0, 2, 4, 6, 8] ∧ (16 : Nat) ∈ [8, 16] ∧
    (getMinInputIndex < getMaxInputIndex ⟨3, 4, 16⟩ ↔ hasInputSlot ⟨3, 4, 16⟩) :=
  ⟨by decide, by decide, by decide,
    C2_min_lt_max_iff_input_slot 3 (by decide) 4 (by decide) 16 (by decide)⟩

/-- C4 counterexample: with boundary 0 (a valid value) and no slot
present, the input range is the sentinel [1, 1] and the output range
starts at 1 as well, so the integer 1 lies in both ranges — the claimed
non-overlap is false as stated for boundary 0. -/
theorem C4_counterexample :
    (0 : Nat) ∈ [0, 2, 4, 6, 8] ∧ (16 : Nat) ∈ [8, 16] ∧
    getMinInputIndex ≤ 1 ∧ 1 ≤ getMaxInputIndex ⟨0, 0, 16⟩ ∧
    getMinOutputIndex ⟨0, 0, 16⟩ ≤ 1 ∧ 1 ≤ getMaxOutputIndex ⟨0, 0, 16⟩ := by
  decide

/-- Helper for C4: for every boundary in {2,4,6,8} the advertised input
maximum always lies strictly below the output minimum. -/
theorem maxInput_lt_minOutput :
    ∀ found < 256, ∀ b ∈ [2, 4, 6, 8], ∀ pins ∈ [8, 16],
      getMaxInputIndex ⟨found, b, pins⟩ < getMinOutputIndex ⟨found, b, pins⟩ := by
  decide

/-- C4 amended: for every partition boundary in {2,4,6,8} (boundary 0,
where the input space is empty and its sentinel range [1,1] meets the
output range at 1, is excluded), pins-per-device in {8,16} and every
presence bitmap, no integer lies in both the input index range
[getMinInputIndex(), getMaxInputIndex()] and the output index range
[getMinOutputIndex(), getMaxOutputIndex()]. -/
theorem C4_ranges_no_overlap :
    ∀ found < 256, ∀ b ∈ [2, 4, 6, 8], ∀ pins ∈ [8, 16], ∀ n : Nat,
      ¬ (getMinInputIndex ≤ n ∧ n ≤ getMaxInputIndex ⟨found, b, pins⟩ ∧
         getMinOutputIndex ⟨found, b, pins⟩ ≤ n ∧
         n ≤ getMaxOutputIndex ⟨found, b, pins⟩) := by
  intro found hf b hb pins hp n h
  have hkey := maxInput_lt_minOutput found hf b hb pins hp
  omega

/-- C4 amended witness at found = 255, boundary = 4, pins = 16, n = 64. -/
theorem C4_ranges_no_overlap_witness :
    (255 : Nat) < 256 ∧ (4 : Nat) ∈ [2, 4, 6, 8] ∧ (16 : Nat) ∈ [8, 16] ∧
    ¬ (getMinInputIndex ≤ 64 ∧ 64 ≤ getMaxInputIndex ⟨255, 4, 16⟩ ∧
       getMinOutputIndex ⟨255, 4, 16⟩ ≤ 64 ∧ 64 ≤ getMaxOutputIndex ⟨255, 4, 16⟩) :=
  ⟨by decide, by decide, by decide,
    C4_ranges_no_overlap 255 (by decide) 4 (by decide) 16 (by decide) 64⟩

/-- Helper for C3: the round trip checked over all valid boundary /
pins / slot / pin combinations, at the fixed (irrelevant) bitmap 0. -/
theorem outpRoundTrip_aux :
    ∀ b ∈ [0, 2, 4, 6, 8], ∀ pins ∈ [8, 16], ∀ slot < 8, ∀ pin < 16,
      b ≤ slot → pin < pins →
      outpIndex2Mcp ⟨0, b, pins⟩ (outputEventIndex ⟨0, b, pins⟩ slot pin) = slot ∧
      outpIndex2Pin ⟨0, b, pins⟩ (outputEventIndex ⟨0, b, pins⟩ slot pin) = pin := by
  decide

/-- C3: for every valid output (slot, pin) pair — slot present, slot at
or above the boundary, pin below the per-device output pin count — and
for both 8 and 16 outputs per device, the logical index computed by the
output event path maps back through outpIndex2Mcp / outpIndex2Pin to the
original slot and pin. -/
theorem C3_output_index_roundtrip :
    ∀ found < 256, ∀ b ∈ [0, 2, 4, 6, 8], ∀ pins ∈ [8, 16], ∀ slot < 8, ∀ pin < 16,
      mcpFound ⟨found, b, pins⟩ slot = true → b ≤ slot → pin < pins →
      outpIndex2Mcp ⟨found, b, pins⟩ (outputEventIndex ⟨found, b, pins⟩ slot pin) = slot ∧
      outpIndex2Pin ⟨found, b, pins⟩ (outputEventIndex ⟨found, b, pins⟩ slot pin) = pin := by
  intro found _ b hb pins hp slot hs pin hpin _ hbs hps
  exact outpRoundTrip_aux b hb pins hp slot hs pin hpin hbs hps

/-- Helper: a valid index makes getOutputIndex return the index with no
log output. -/
theorem getOutputIndex_valid (s : State) (e : Option Nat) (index : Nat)
    (hidx : e = some index)
    (hlo : getMinOutputIndex s ≤ index) (hhi : index ≤ getMaxOutputIndex s) :
    getOutputIndex s e = (index, []) := by
  subst hidx
  simp only [getOutputIndex]
  rw [if_neg]
  omega

/-- Helper: a valid index is nonzero (the output minimum is at least 1). -/
theorem valid_index_ne_zero (s : State) (index : Nat)
    (hlo : getMinOutputIndex s ≤ index) : index ≠ 0 := by
  have : 1 ≤ getMinOutputIndex s := by
    simp [getMinOutputIndex]
  omega

/-- Helper: jsonOutputConfig on an entry with a valid index reduces to
the three field-processing blocks in program order. -/
theorem jsonOutputConfig_valid (s : State) (e : OutputConfigEntry) (index : Nat)
    (hidx : e.index = some index)
    (hlo : getMinOutputIndex s ≤ index) (hhi : index ≤ getMaxOutputIndex s) :
    jsonOutputConfig s e =
      typeEffects (outpIndex2Mcp s index) (outpIndex2Pin s index) e.type
        ++ timerEffects (outpIndex2Mcp s index) (outpIndex2Pin s index) e.timerSeconds
        ++ interlockEffects s (outpIndex2Mcp s index) (outpIndex2Pin s index) e.interlockIndex := by
  have h0 := getOutputIndex_valid s e.index index hidx hlo hhi
  have hne := valid_index_ne_zero s index hlo
  simp only [jsonOutputConfig, h0]
  rw [if_neg hne]
  simp

/-- Helper: the type block never calls setInterlock. -/
theorem setInterlock_not_mem_typeEffects (mcp pin : Nat) (t : Option String) (m p l : Nat) :
    Effect.setInterlock m p l ∉ typeEffects mcp pin t := by
  cases t with
  | none => simp [typeEffects]
  | some t =>
    simp only [typeEffects, parseOutputTypeLogs]
    split <;> simp

/-- Helper: the timer block never calls setInterlock. -/
theorem setInterlock_not_mem_timerEffects (mcp pin : Nat) (jf : JField Int) (m p l : Nat) :
    Effect.setInterlock m p l ∉ timerEffects mcp pin jf := by
  cases jf <;> simp [timerEffects]

/-- C1 counterexample: boundary 4, 16 pins per device, all slots
present; the config entry has the valid index 65 and timerSeconds 0, and
the handler does NOT reject it — it performs the timer update
setTimer(pin 0, 0 seconds), contradicting the claim that a zero value is
rejected with the pin's timer left unchanged. -/
theorem C1_counterexample :
    getMinOutputIndex ⟨255, 4, 16⟩ ≤ 65 ∧ 65 ≤ getMaxOutputIndex ⟨255, 4, 16⟩ ∧
    jsonOutputConfig ⟨255, 4, 16⟩ ⟨some 65, none, JField.val 0, JField.absent⟩ =
      [Effect.setTimer 4 0 0] := by
  decide

/-- C1 amended: for every output config entry whose index is valid, an
explicit JSON null timerSeconds calls setTimer with the fixed default
duration, and any non-null value v — 0 included — is forwarded to
setTimer(pin, v) unvalidated; the minimum of 1 is only advertised in the
config schema, not enforced by the handler. -/
theorem C1_timer_null_default_value_forwarded (s : State) (e : OutputConfigEntry) (index : Nat)
    (hidx : e.index = some index)
    (hlo : getMinOutputIndex s ≤ index) (hhi : index ≤ getMaxOutputIndex s) :
    (e.timerSeconds = JField.null →
      Effect.setTimer (outpIndex2Mcp s index) (outpIndex2Pin s index) DEFAULT_TIMER_SECS
        ∈ jsonOutputConfig s e) ∧
    (∀ v : Int, e.timerSeconds = JField.val v →
      Effect.setTimer (outpIndex2Mcp s index) (outpIndex2Pin s index) v
        ∈ jsonOutputConfig s e) := by
  have hcfg := jsonOutputConfig_valid s e index hidx hlo hhi
  constructor
  · intro hnull
    rw [hcfg, hnull]
    simp [timerEffects, List.mem_append]
  · intro v hval
    rw [hcfg, hval]
    simp [timerEffects, List.mem_append]

/-- C1 amended witness: boundary 4, all slots present, entry with index
65 and an explicit null timerSeconds. -/
theorem C1_timer_null_default_value_forwarded_witness :
    (⟨some 65, none, JField.null, JField.absent⟩ : OutputConfigEntry).index = some 65 ∧
    getMinOutputIndex ⟨255, 4, 16⟩ ≤ 65 ∧ 65 ≤ getMaxOutputIndex ⟨255, 4, 16⟩ ∧
    (((⟨some 65, none, JField.null, JField.absent⟩ : OutputConfigEntry).timerSeconds = JField.null →
      Effect.setTimer (outpIndex2Mcp ⟨255, 4, 16⟩ 65) (outpIndex2Pin ⟨255, 4, 16⟩ 65) DEFAULT_TIMER_SECS
        ∈ jsonOutputConfig ⟨255, 4, 16⟩ ⟨some 65, none, JField.null, JField.absent⟩) ∧
    (∀ v : Int, (⟨some 65, none, JField.null, JField.absent⟩ : OutputConfigEntry).timerSeconds = JField.val v →
      Effect.setTimer (outpIndex2Mcp ⟨255, 4, 16⟩ 65) (outpIndex2Pin ⟨255, 4, 16⟩ 65) v
        ∈ jsonOutputConfig ⟨255, 4, 16⟩ ⟨some 65, none, JField.null, JField.absent⟩)) :=
  ⟨rfl, by decide, by decide,
    C1_timer_null_default_value_forwarded ⟨255, 4, 16⟩
      ⟨some 65, none, JField.null, JField.absent⟩ 65 rfl (by decide) (by decide)⟩

/-- C5: for every output config entry with a valid index and a non-null
interlockIndex, if the interlock index resolves via outpIndex2Mcp to an
MCP different from the entry's own, the request is rejected with a logged
warning and no setInterlock call happens at all; if it resolves to the
same MCP, setInterlock is called with the resolved pin. -/
theorem C5_interlock_same_slot_enforced (s : State) (e : OutputConfigEntry)
    (index iv : Nat)
    (hidx : e.index = some index)
    (hlo : getMinOutputIndex s ≤ index) (hhi : index ≤ getMaxOutputIndex s)
    (hil : e.interlockIndex = JField.val iv) :
    (outpIndex2Mcp s iv ≠ outpIndex2Mcp s index →
      Effect.logWarning LogMsg.lockMustBeSameMcp ∈ jsonOutputConfig s e ∧
      ∀ m p l, Effect.setInterlock m p l ∉ jsonOutputConfig s e) ∧
    (outpIndex2Mcp s iv = outpIndex2Mcp s index →
      Effect.setInterlock (outpIndex2Mcp s index) (outpIndex2Pin s index) (outpIndex2Pin s iv)
        ∈ jsonOutputConfig s e) := by
  have hcfg := jsonOutputConfig_valid s e index hidx hlo hhi
  constructor
  · intro hne
    constructor
    · rw [hcfg, hil]
      simp [interlockEffects, if_neg hne, List.mem_append]
    · intro m p l
      rw [hcfg, hil]
      simp only [List.mem_append, not_or]
      refine ⟨⟨setInterlock_not_mem_typeEffects _ _ _ _ _ _,
        setInterlock_not_mem_timerEffects _ _ _ _ _ _⟩, ?_⟩
      simp [interlockEffects, if_neg hne]
  · intro heq
    rw [hcfg, hil]
    simp [interlockEffects, if_pos heq, List.mem_append]

/-- C5 witness: boundary 4, 16 pins per device, all slots present;
source index 65 (slot 4, pin 0), interlock index 81 resolving to slot 5
(different slot) — both branches of the theorem instantiated there. -/
theorem C5_interlock_same_slot_enforced_witness :
    (⟨some 65, none, JField.absent, JField.val 81⟩ : OutputConfigEntry).index = some 65 ∧
    getMinOutputIndex ⟨255, 4, 16⟩ ≤ 65 ∧ 65 ≤ getMaxOutputIndex ⟨255, 4, 16⟩ ∧
    (⟨some 65, none, JField.absent, JField.val 81⟩ : OutputConfigEntry).interlockIndex = JField.val 81 ∧
    ((outpIndex2Mcp ⟨255, 4, 16⟩ 81 ≠ outpIndex2Mcp ⟨255, 4, 16⟩ 65 →
      Effect.logWarning LogMsg.lockMustBeSameMcp
        ∈ jsonOutputConfig ⟨255, 4, 16⟩ ⟨some 65, none, JField.absent, JField.val 81⟩ ∧
      ∀ m p l, Effect.setInterlock m p l
        ∉ jsonOutputConfig ⟨255, 4, 16⟩ ⟨some 65, none, JField.absent, JField.val 81⟩) ∧
    (outpIndex2Mcp ⟨255, 4, 16⟩ 81 = outpIndex2Mcp ⟨255, 4, 16⟩ 65 →
      Effect.setInterlock (outpIndex2Mcp ⟨255, 4, 16⟩ 65) (outpIndex2Pin ⟨255, 4, 16⟩ 65)
          (outpIndex2Pin ⟨255, 4, 16⟩ 81)
        ∈ jsonOutputConfig ⟨255, 4, 16⟩ ⟨some 65, none, JField.absent, JField.val 81⟩)) :=
  ⟨rfl, by decide, by decide, rfl,
    C5_interlock_same_slot_enforced ⟨255, 4, 16⟩
      ⟨some 65, none, JField.absent, JField.val 81⟩ 65 81 rfl (by decide) (by decide) rfl⟩

/-- C6: for every output command entry with a valid index, if a type
field is present and does not parse to the pin's configured output type
(read through getTy), the entry is rejected: the mismatch warning is
logged and every effect of the entry is a log line — no handleCommand, no
publish, no state change. -/
theorem C6_command_type_mismatch_rejected (s : State)
    (getTy digitalRead : Nat → Nat → Nat) (e : OutputCommandEntry)
    (index : Nat) (t : String)
    (hidx : e.index = some index)
    (hlo : getMinOutputIndex s ≤ index) (hhi : index ≤ getMaxOutputIndex s)
    (ht : e.type = some t)
    (hmm : parseOutputType t ≠ getTy (outpIndex2Mcp s index) (outpIndex2Pin s index)) :
    Effect.logWarning LogMsg.commandTypeMismatch ∈ jsonOutputCommand s getTy digitalRead e ∧
    ∀ eff ∈ jsonOutputCommand s getTy digitalRead e, ∃ m, eff = Effect.logWarning m := by
  have h0 := getOutputIndex_valid s e.index index hidx hlo hhi
  have hne := valid_index_ne_zero s index hlo
  have hcmd : jsonOutputCommand s getTy digitalRead e =
      parseOutputTypeLogs t ++ [Effect.logWarning LogMsg.commandTypeMismatch] := by
    simp only [jsonOutputCommand, h0]
    rw [if_neg hne, ht]
    simp [if_pos hmm]
  rw [hcmd]
  constructor
  · simp [List.mem_append]
  · intro eff heff
    simp only [parseOutputTypeLogs] at heff
    rcases List.mem_append.mp heff with h | h
    · revert h
      split
      · intro h
        rw [List.mem_singleton.mp h]
        exact ⟨LogMsg.invalidOutputType, rfl⟩
      · intro h
        exact absurd h (List.not_mem_nil _)
    · rw [List.mem_singleton.mp h]
      exact ⟨LogMsg.commandTypeMismatch, rfl⟩

/-- C6 witness: boundary 4, all slots present, every pin configured as
RELAY; command entry with index 65 and type "motor" is rejected. -/
theorem C6_command_type_mismatch_rejected_witness :
    (⟨some 65, some "motor", JField.val "on"⟩ : OutputCommandEntry).index = some 65 ∧
    getMinOutputIndex ⟨255, 4, 16⟩ ≤ 65 ∧ 65 ≤ getMaxOutputIndex ⟨255, 4, 16⟩ ∧
    (⟨some 65, some "motor", JField.val "on"⟩ : OutputCommandEntry).type = some "motor" ∧
    parseOutputType "motor" ≠
      (fun _ _ => RELAY) (outpIndex2Mcp ⟨255, 4, 16⟩ 65) (outpIndex2Pin ⟨255, 4, 16⟩ 65) ∧
    (Effect.logWarning LogMsg.commandTypeMismatch ∈
      jsonOutputCommand ⟨255, 4, 16⟩ (fun _ _ => RELAY) (fun _ _ => 0)
        ⟨some 65, some "motor", JField.val "on"⟩ ∧
    ∀ eff ∈ jsonOutputCommand ⟨255, 4, 16⟩ (fun _ _ => RELAY) (fun _ _ => 0)
        ⟨some 65, some "motor", JField.val "on"⟩, ∃ m, eff = Effect.logWarning m) :=
  ⟨rfl, by decide, by decide, rfl, by decide,
    C6_command_type_mismatch_rejected ⟨255, 4, 16⟩ (fun _ _ => RELAY) (fun _ _ => 0)
      ⟨some 65, some "motor", JField.val "on"⟩ 65 "motor" rfl (by decide) (by decide) rfl
      (by decide)⟩

/-- C9: the interlockIndex of an output config entry is never validated
against the output index range.  Concretely, with boundary 4, 16 pins
per device and all slots present, the out-of-range interlock index 64
(strictly below getMinOutputIndex() = 65) paired with the valid source
index 65 passes the same-MCP check — C truncating division maps the
negative offset -1 to the source's own slot 4 — and setInterlock is
invoked with the out-of-range resolved pin 255 (the uint8 conversion of
-1 % 16), far beyond the 16 pins a device has. -/
theorem C9_interlock_range_unchecked :
    64 < getMinOutputIndex ⟨255, 4, 16⟩ ∧
    getMinOutputIndex ⟨255, 4, 16⟩ ≤ 65 ∧ 65 ≤ getMaxOutputIndex ⟨255, 4, 16⟩ ∧
    jsonOutputConfig ⟨255, 4, 16⟩ ⟨some 65, none, JField.absent, JField.val 64⟩ =
      [Effect.setInterlock 4 0 255] ∧
    MCP_PIN_COUNT ≤ 255 := by
  decide

/-- Helper for C10: port/channel arithmetic checked for every uint8
index, at fixed type/state codes (which the arithmetic ignores). -/
theorem publishInputEvent_port_channel_aux :
    ∀ index < 256, 1 ≤ index →
      1 ≤ (publishInputEvent index 0 0).channel ∧
      (publishInputEvent index 0 0).channel ≤ 4 ∧
      ((publishInputEvent index 0 0).port - 1) * 4 + (publishInputEvent index 0 0).channel = index ∧
      (publishInputEvent index 0 0).port = (index - 1) / 4 + 1 ∧
      (publishInputEvent index 0 0).channel =
        index - ((publishInputEvent index 0 0).port - 1) * 4 ∧
      (publishInputEvent index 0 0).index = index := by
  decide

/-- C10: every published input event record carries port and channel
fields computed as port = ((index - 1) / 4) + 1 and
channel = index - (port - 1) * 4, and for every uint8 index ≥ 1 the
channel lies in [1, 4] and (port - 1) * 4 + channel recovers the index. -/
theorem C10_input_event_port_channel (ty st : Nat) :
    ∀ index < 256, 1 ≤ index →
      1 ≤ (publishInputEvent index ty st).channel ∧
      (publishInputEvent index ty st).channel ≤ 4 ∧
      ((publishInputEvent index ty st).port - 1) * 4 + (publishInputEvent index ty st).channel = index ∧
      (publishInputEvent index ty st).port = (index - 1) / 4 + 1 ∧
      (publishInputEvent index ty st).channel =
        index - ((publishInputEvent index ty st).port - 1) * 4 ∧
      (publishInputEvent index ty st).index = index := by
  intro index hlt hge
  exact publishInputEvent_port_channel_aux index hlt hge

/-- C10 witness at index 7 (type code 2, state code 1): port 2, channel 3. -/
theorem C10_input_event_port_channel_witness :
    (7 : Nat) < 256 ∧ (1 : Nat) ≤ 7 ∧
    (1 ≤ (publishInputEvent 7 2 1).channel ∧
     (publishInputEvent 7 2 1).channel ≤ 4 ∧
     ((publishInputEvent 7 2 1).port - 1) * 4 + (publishInputEvent 7 2 1).channel = 7 ∧
     (publishInputEvent 7 2 1).port = (7 - 1) / 4 + 1 ∧
     (publishInputEvent 7 2 1).channel = 7 - ((publishInputEvent 7 2 1).port - 1) * 4 ∧
     (publishInputEvent 7 2 1).index = 7) :=
  ⟨by decide, by decide, C10_input_event_port_channel 2 1 7 (by decide) (by decide)⟩

/-- C8: the built config schema omits its input section exactly when the
partition boundary is 0 (slot 0 is an output slot) and omits its output
section exactly when the boundary is 8 (the last slot is an input slot);
for the other valid boundary values both sections are present. -/
theorem C8_schema_section_inclusion :
    ∀ (found pins : Nat), ∀ b ∈ [0, 2, 4, 6, 8],
      ((setConfigSchema ⟨found, b, pins⟩).1 = none ↔ b = 0) ∧
      ((setConfigSchema ⟨found, b, pins⟩).2 = none ↔ b = 8) := by
  intro found pins b hb
  simp only [List.mem_cons, List.not_mem_nil, or_false] at hb
  rcases hb with rfl | rfl | rfl | rfl | rfl <;>
    simp [setConfigSchema, isInputMcp, isOutputMcp, MCP_COUNT]

/-- C8 witness at found = 255, pins = 16, boundary = 4: both sections
present. -/
theorem C8_schema_section_inclusion_witness :
    (4 : Nat) ∈ [0, 2, 4, 6, 8] ∧
    (((setConfigSchema ⟨255, 4, 16⟩).1 = none ↔ (4 : Nat) = 0) ∧
     ((setConfigSchema ⟨255, 4, 16⟩).2 = none ↔ (4 : Nat) = 8)) :=
  ⟨by decide, C8_schema_section_inclusion 255 16 4 (by decide)⟩

/-- C3 witness at found = 255, boundary = 4, pins = 16, slot = 5, pin = 3. -/
theorem C3_output_index_roundtrip_witness :
    (255 : Nat) < 256 ∧ (4 : Nat) ∈ [0, 2, 4, 6, 8] ∧ (16 : Nat) ∈ [8, 16] ∧
    (5 : Nat) < 8 ∧ (3 : Nat) < 16 ∧
    mcpFound ⟨255, 4, 16⟩ 5 = true ∧ (4 : Nat) ≤ 5 ∧ (3 : Nat) < 16 ∧
    (outpIndex2Mcp ⟨255, 4, 16⟩ (outputEventIndex ⟨255, 4, 16⟩ 5 3) = 5 ∧
     outpIndex2Pin ⟨255, 4, 16⟩ (outputEventIndex ⟨255, 4, 16⟩ 5 3) = 3) :=
  ⟨by decide, by decide, by decide, by decide, by decide, by decide, by decide, by decide,
    C3_output_index_roundtrip 255 (by decide) 4 (by decide) 16 (by decide) 5 (by decide)
      3 (by decide) (by decide) (by decide) (by decide)⟩

end StateIO
